import Mathlib

/-!
Verification of the natural-language specification of the `tele_bot`
repository against its source.  Each Python function or class that a claim
touches is embedded shallowly as a Lean definition; theorems at the end of
the file settle the claims.

Embedded source files:
* `telegram/helpers.py` (`escape_markdown`)
* `telegram/_telegramobject.py` (`TelegramObject.__eq__`, `__hash__`)
* `telegram/bot.py` (`Bot.__init__`)
* `telegram/utils/request.py` (`_parse`, `_request_wrapper`)
* `telegram/update.py` (`Update`, `Update.newFromJsonDict`)

The dispatch core (`telegram.ext.Application`, handler base classes) is not
part of the source tree — only its test-suite is — so those parts are
modelled from the specification, as marked in their doc comments.
-/

/-! ## `telegram/helpers.py` — `escape_markdown` -/

/-- Backtick character (code point 96), written numerically. -/
def backtickChar : Char := Char.ofNat 96

/-- Opening brace character (code point 123). -/
def lbraceChar : Char := Char.ofNat 123

/-- Closing brace character (code point 125). -/
def rbraceChar : Char := Char.ofNat 125

/-- The version-1 escape set: underscore, asterisk, backtick, opening bracket. -/
def escapeCharsV1 : List Char := ['_', '*', backtickChar, '[']

/-- Version-2 escape set for entity type `pre` or `code`: backslash, backtick. -/
def escapeCharsPreCode : List Char := ['\\', backtickChar]

/-- Version-2 escape set for entity type `text_link`: backslash, closing paren. -/
def escapeCharsTextLink : List Char := ['\\', ')']

/-- Version-2 escape set for the default entity type (all markup symbols). -/
def escapeCharsV2 : List Char :=
  ['_', '*', '[', ']', '(', ')', '~', backtickChar, '>', '#', '+', '-', '=',
   '|', lbraceChar, rbraceChar, '.', '!']

/-- The `re.sub` call of `escape_markdown`: its pattern is a single-character
class built from `escape_chars`, and the replacement prepends a backslash, so
the substitution prepends a backslash to every character of `text` that lies
in the class. -/
def reSubEscape (chars : List Char) : List Char → List Char
  | [] => []
  | c :: rest => (if c ∈ chars then ['\\', c] else [c]) ++ reSubEscape chars rest

/-- `escape_markdown(text, version=1, entity_type=None)` from
`telegram/helpers.py`.  The `version` argument is taken at its integer value
(the source applies `int(version)`); a version other than 1 and 2 raises
`ValueError` with the message `Markdown version must be either 1 or 2!`. -/
def escape_markdown (text : List Char) (version : Int)
    (entity_type : Option String) : Except String (List Char) :=
  if version = 1 then
    Except.ok (reSubEscape escapeCharsV1 text)
  else if version = 2 then
    if entity_type = some "pre" ∨ entity_type = some "code" then
      Except.ok (reSubEscape escapeCharsPreCode text)
    else if entity_type = some "text_link" then
      Except.ok (reSubEscape escapeCharsTextLink text)
    else
      Except.ok (reSubEscape escapeCharsV2 text)
  else
    Except.error "Markdown version must be either 1 or 2!"

/-- Restatement of the claimed version-1 behaviour in the specification's own
words: a single backslash is inserted immediately before every occurrence of
`_`, `*`, the backtick, and `[`; every other character is unchanged.  Written
independently of `reSubEscape` for comparison. -/
def escapeMarkdownV1Spec (text : List Char) : List Char :=
  text.flatMap fun c =>
    if c = '_' ∨ c = '*' ∨ c = backtickChar ∨ c = '[' then ['\\', c] else [c]

/-! ## `telegram/_telegramobject.py` — equality and hashing -/

/-- A value usable as an entry of `_id_attrs`; the repository uses integers,
strings and nested objects, modelled here by integers and strings. -/
inductive IdVal where
  | int (v : Int)
  | str (s : String)
deriving DecidableEq, Repr

/-- Shallow state of a `TelegramObject`: its concrete class (Python
`self.__class__`, modelled by its name) and the `_id_attrs` tuple. -/
structure TelegramObject where
  cls : String
  idAttrs : List IdVal
deriving DecidableEq, Repr

/-- An injective numeric code for an `IdVal`, used by the hash model. -/
def idValCode : IdVal → Nat
  | IdVal.int v => if v < 0 then 4 * v.natAbs + 1 else 4 * v.natAbs
  | IdVal.str s => 4 * (s.foldl (fun h c => h * 1114112 + c.toNat) 0) + 2

/-- Model of Python's `hash((self.__class__, self._id_attrs))`: a concrete
deterministic function of the class and the attribute tuple.  (Any function
of exactly these two components is a faithful model: CPython guarantees only
that equal tuples hash equally.) -/
def pyHashPair (cls : String) (attrs : List IdVal) : Nat :=
  attrs.foldl (fun h v => h * 1000003 + idValCode v)
    (cls.foldl (fun h c => h * 31 + c.toNat) 7)

/-- `TelegramObject.__eq__` (`telegram/_telegramobject.py`): when `other` is
an instance of the same class, compare the `_id_attrs` tuples (a warning is
emitted, with no effect on the result, when either tuple is empty);
otherwise Python falls back to `object.__eq__`, which is identity — distinct
value-world objects compare unequal, modelled by `false`. -/
def TelegramObject.eq (a b : TelegramObject) : Bool :=
  if a.cls = b.cls then decide (a.idAttrs = b.idAttrs) else false

/-- `TelegramObject.__hash__` (`telegram/_telegramobject.py`): when
`_id_attrs` is non-empty the hash is `hash((self.__class__, self._id_attrs))`;
otherwise Python falls back to the identity-based `object.__hash__`,
modelled here by a constant (the claims only concern the non-empty case). -/
def TelegramObject.hashVal (a : TelegramObject) : Nat :=
  if a.idAttrs ≠ [] then pyHashPair a.cls a.idAttrs else 0

/-! ## `telegram/bot.py` — `Bot.__init__` -/

/-- `telegram.error.TelegramError` as used by `bot.py`: the constructor
argument carries the message text: the dict literal passed in `bot.py` with
key `message` and value `Bad token` carries the message `Bad token`. -/
structure TelegramError where
  message : String
deriving DecidableEq, Repr

/-- The identity returned by `getMe` (`telegram.User` fields that
`Bot.__init__` reads: `id`, `first_name`, `last_name`, `username`). -/
structure BotUser where
  id : Int
  first_name : String
  last_name : Option String
  username : Option String
deriving DecidableEq, Repr

/-- The state a successful `Bot.__init__` leaves behind: token, base URL and
the identity fields copied from the `getMe` result, with the private
auth flag set to True.  (Named `TgBot` because `Bot` is taken by Mathlib.) -/
structure TgBot where
  token : String
  base_url : String
  id : Int
  first_name : String
  last_name : Option String
  username : Option String
  auth : Bool
deriving DecidableEq, Repr

/-- The `base_url` computation of `Bot.__init__`: default
`https://api.telegram.org/bot<token>`, else `base_url + token`. -/
def botBaseUrl (token : String) (base_url : Option String) : String :=
  match base_url with
  | none => "https://api.telegram.org/bot" ++ token
  | some b => b ++ token

/-- `Bot.__init__` (`telegram/bot.py` lines 13-35).  The network call
`self.getMe()` is passed in as a function of the token; when it raises a
`TelegramError` the constructor raises a fresh `TelegramError` with message
`Bad token` instead of propagating the original error. -/
def botNew (token : String) (base_url : Option String)
    (getMe : String → Except TelegramError BotUser) : Except TelegramError TgBot :=
  match getMe token with
  | Except.ok u =>
      Except.ok { token := token, base_url := botBaseUrl token base_url,
                  id := u.id, first_name := u.first_name,
                  last_name := u.last_name, username := u.username,
                  auth := true }
  | Except.error _ => Except.error { message := "Bad token" }

/-! ## `telegram/utils/request.py` — `_parse` and `_request_wrapper` -/

/-- The observable parse behaviour of a response body `resp.data`:
either the bytes are not valid UTF-8 (`decode` raises a
`UnicodeDecodeError`, a subclass of `ValueError`), or the text is not valid
JSON (`json.loads` raises `ValueError`, which `_parse` converts to
`TelegramError('Invalid server response')`), or the JSON carries
`ok=False` with a `description` (returned as the message), or it carries a
`result` payload (returned as-is, modelled by a string). -/
inductive ParsedBody where
  | notUtf8
  | invalidJson
  | errorDesc (s : String)
  | result (s : String)
deriving DecidableEq, Repr

/-- The exceptions `_parse` can raise: a `ValueError` (from `decode`) or a
`TelegramError` (from the `json.loads` failure branch). -/
inductive ParseErr where
  | valueError
  | telegramErr (msg : String)
deriving DecidableEq, Repr

/-- `_parse(json_data)` from `telegram/utils/request.py` (lines 65-81). -/
def parseBody : ParsedBody → Except ParseErr String
  | ParsedBody.notUtf8 => Except.error ParseErr.valueError
  | ParsedBody.invalidJson =>
      Except.error (ParseErr.telegramErr "Invalid server response")
  | ParsedBody.errorDesc s => Except.ok s
  | ParsedBody.result s => Except.ok s

/-- The typed errors of `telegram.error` that the request layer can raise,
plus `conflict`, which the error module defines and the tests exercise but
which `_request_wrapper` never raises. -/
inductive TgError where
  | timedOut
  | networkError (msg : String)
  | unauthorized
  | badRequest (msg : String)
  | telegramError (msg : String)
  | conflict (msg : String)
deriving DecidableEq, Repr

/-- What the underlying `urllib3` request produced: a timeout, another
HTTP-level error, or an HTTP response with a status and a body. -/
inductive RequestOutcome where
  | timeout
  | httpError (e : String)
  | response (status : Nat) (body : ParsedBody)
deriving DecidableEq, Repr

/-- Single-quote character (code point 39), written numerically. -/
def squoteChar : Char := Char.ofNat 39

/-- Python `repr` of a plain string message, as used by
`BadRequest(repr(message))`: the text wrapped in single quotes. -/
def pyRepr (s : String) : String :=
  String.singleton squoteChar ++ s ++ String.singleton squoteChar

/-- `_request_wrapper(*args, **kwargs)` from `telegram/utils/request.py`
(lines 84-124): timeouts raise `TimedOut`, other transport errors raise
`NetworkError`; a 2xx status returns the raw body; otherwise the body is
parsed — a `ValueError` there raises `NetworkError('Unknown HTTPError
<status>')`, while the `TelegramError` that `_parse` raises on invalid JSON
propagates uncaught — and the status is mapped: 401/403 to `Unauthorized`,
400 to `BadRequest(repr(message))`, 502 to `NetworkError('Bad Gateway')`,
anything else to `NetworkError('<message> (<status>)')`. -/
def requestWrapper : RequestOutcome → Except TgError ParsedBody
  | RequestOutcome.timeout => Except.error TgError.timedOut
  | RequestOutcome.httpError e =>
      Except.error (TgError.networkError ("urllib3 HTTPError " ++ e))
  | RequestOutcome.response status body =>
      if 200 ≤ status ∧ status ≤ 299 then
        Except.ok body
      else
        match parseBody body with
        | Except.error ParseErr.valueError =>
            Except.error (TgError.networkError
              ("Unknown HTTPError " ++ toString status))
        | Except.error (ParseErr.telegramErr m) =>
            Except.error (TgError.telegramError m)
        | Except.ok message =>
            if status = 401 ∨ status = 403 then
              Except.error TgError.unauthorized
            else if status = 400 then
              Except.error (TgError.badRequest (pyRepr message))
            else if status = 502 then
              Except.error (TgError.networkError "Bad Gateway")
            else
              Except.error (TgError.networkError
                (message ++ " (" ++ toString status ++ ")"))

/-- Discriminator: is this outcome a raised `Conflict`? -/
def isConflict : Except TgError ParsedBody → Bool
  | Except.error (TgError.conflict _) => true
  | _ => false

/-- Discriminator: is this outcome a raised `NetworkError`? -/
def isNetworkError : Except TgError ParsedBody → Bool
  | Except.error (TgError.networkError _) => true
  | _ => false

/-- The error mapping the specification claims for a non-2xx status whose
body parsed to the message `s` (the refinement target for the request
layer, with `Conflict` removed): `Unauthorized` for 401 and 403,
`BadRequest` for 400, `NetworkError('Bad Gateway')` for 502, a generic
`NetworkError` for every other non-2xx status. -/
def specHttpError (status : Nat) (s : String) : TgError :=
  if status = 401 ∨ status = 403 then TgError.unauthorized
  else if status = 400 then TgError.badRequest (pyRepr s)
  else if status = 502 then TgError.networkError "Bad Gateway"
  else TgError.networkError (s ++ " (" ++ toString status ++ ")")

/-! ## `telegram/update.py` — `Update` and `Update.newFromJsonDict` -/

/-- The `telegram.Message` payload as far as `update.py` needs it; the
construction of the full object is `Message.de_json` and is out of scope of
the claims, so a message is identified by its `message_id` and `text`. -/
structure TgMessage where
  message_id : Option Int
  text : Option String
deriving DecidableEq, Repr

/-- The `Update` object of `telegram/update.py`: `param_defaults` lists
exactly the fields `update_id` and `message`, both defaulting to `None`. -/
structure TgUpdate where
  update_id : Option Int
  message : Option TgMessage
deriving DecidableEq, Repr

/-- The JSON dictionary consumed by `Update.newFromJsonDict`, restricted to
the keys that method reads: an optional `update_id` value and an optional
`message` sub-dictionary (already parsed into a `TgMessage`). -/
structure UpdateJson where
  update_id : Option Int
  message : Option TgMessage
deriving DecidableEq, Repr

/-- `Update.newFromJsonDict(data)` from `telegram/update.py` (lines 14-23):
if the key `message` is present its value is parsed into a message,
otherwise `message = None`; `update_id` is `data.get('update_id', None)`. -/
def newFromJsonDict (data : UpdateJson) : TgUpdate :=
  { update_id := data.update_id, message := data.message }

/-- The number of non-`None` payload fields of an `Update`; `param_defaults`
of `update.py` has a single payload field, `message`. -/
def payloadCount (u : TgUpdate) : Nat :=
  match u.message with
  | some _ => 1
  | none => 0

/-! ## Dispatch core — modelled from the spec

The `telegram.ext` dispatch core (`Application`, `BaseHandler`) is not part
of this source tree; only its test-suite is.  The following definitions are
therefore modelled from the specification (sections 3, 4.1 and 4.3),
grounded by the behaviour the tests in `tests/test_application.py` pin
down. -/

/-- Modelled from the spec: the value a handler `check(update)` returns.
Python values relevant to the truthiness rule of section 4.1 step 2 are
`None`, booleans, dictionaries (possibly empty) and strings (possibly
empty); `test_check_update_handling` exercises exactly
`True, None, False` and an empty dict, empty string and non-empty string. -/
inductive CheckResult where
  | pyNone
  | pyBool (b : Bool)
  | pyDict (entries : List (String × String))
  | pyStr (s : String)
deriving DecidableEq, Repr

/-- Modelled from the spec: a check result selects the handler when it is
neither `None` nor `False` — empty containers and empty strings still
count as a match. -/
def CheckResult.isMatch : CheckResult → Bool
  | CheckResult.pyNone => false
  | CheckResult.pyBool b => b
  | CheckResult.pyDict _ => true
  | CheckResult.pyStr _ => true

/-- Modelled from the spec: what a handler callback does when invoked —
return normally, raise the distinguished stop-propagation exception
(`ApplicationHandlerStop`), or raise an ordinary exception routed to the
error-handler pipeline. -/
inductive HandlerOutcome where
  | ok
  | raiseStop
  | raiseError (msg : String)
deriving DecidableEq, Repr

/-- Modelled from the spec (section 4.3): every handler conforms to
`check(update) -> result or None` and
`handle(update, application, check_result, context)`; `hid` identifies the
handler, `check` is its match predicate and `run` its callback behaviour as
a function of the update and of the check result it receives. -/
structure Handler (Upd : Type) where
  hid : Nat
  check : Upd → CheckResult
  run : Upd → CheckResult → HandlerOutcome

/-- One record in the trace of a dispatch: in group `group`, handler `hid`
was selected and its `handle` callback received `checkResult`. -/
structure Ran where
  group : Int
  hid : Nat
  checkResult : CheckResult
deriving DecidableEq, Repr

/-- Modelled from the spec (section 4.1 step 2): iterate the handlers of a
group in order and select the first whose check result matches, returning
it together with the exact check result. -/
def firstMatch {Upd : Type} (u : Upd) : List (Handler Upd) →
    Option (Handler Upd × CheckResult)
  | [] => none
  | h :: rest =>
      let r := h.check u
      if r.isMatch then some (h, r) else firstMatch u rest

/-- Modelled from the spec (section 4.1 steps 2-5, blocking handlers):
visit the groups in the order of the registry; in each group run the first
matching handler, passing it its check result; an ordinary exception is
routed to the error handlers and later groups still run, while the
stop-propagation exception aborts all remaining groups.  The result is the
trace of handler invocations. -/
def dispatchGroups {Upd : Type} (u : Upd) :
    List (Int × List (Handler Upd)) → List Ran
  | [] => []
  | (g, hs) :: rest =>
      match firstMatch u hs with
      | none => dispatchGroups u rest
      | some (h, r) =>
          match h.run u r with
          | HandlerOutcome.raiseStop => [⟨g, h.hid, r⟩]
          | HandlerOutcome.ok => ⟨g, h.hid, r⟩ :: dispatchGroups u rest
          | HandlerOutcome.raiseError _ => ⟨g, h.hid, r⟩ :: dispatchGroups u rest

/-- Modelled from the spec (sections 3 and 4.1): `add_handler(handler,
group)` keeps the registry an ordered mapping from group number to the
ordered sequence of its handlers — sorted by ascending group number, a new
handler appended at the end of its group. -/
def addHandler {Upd : Type} (h : Handler Upd) (group : Int) :
    List (Int × List (Handler Upd)) → List (Int × List (Handler Upd))
  | [] => [(group, [h])]
  | (g, hs) :: rest =>
      if group = g then (g, hs ++ [h]) :: rest
      else if group < g then (group, [h]) :: (g, hs) :: rest
      else (g, hs) :: addHandler h group rest

/-- Modelled from the spec (section 4.1): `process_update(update)` iterates
the handler groups of the registry in ascending group order — the registry
is kept sorted by `addHandler` — dispatching the update to each group. -/
def process_update {Upd : Type} (reg : List (Int × List (Handler Upd)))
    (u : Upd) : List Ran :=
  dispatchGroups u reg

/-- The list of handlers registered under group `g` (empty when the group
does not exist). -/
def groupHandlers {Upd : Type} (g : Int) :
    List (Int × List (Handler Upd)) → List (Handler Upd)
  | [] => []
  | (g0, hs) :: rest => if g = g0 then hs else groupHandlers g rest

/-! ## Application lifecycle — modelled from the spec -/

/-- Modelled from the spec (section 3, Application run-state): the state
machine `not-initialized → initialized → running → stopped → shut down`,
collapsed to its two guards — whether `initialize()` has set the
application up and whether `start()` has made it running. -/
structure AppState where
  initialized : Bool
  running : Bool
deriving DecidableEq, Repr

/-- The fresh, not-initialized application state. -/
def AppState.fresh : AppState := ⟨false, false⟩

/-- Modelled from the spec: `initialize()` is idempotent setup. -/
def initApp (s : AppState) : Except String AppState :=
  Except.ok { s with initialized := true }

/-- Modelled from the spec: `start()` fails if not initialized or already
running, else transitions to running.  The error texts carry the phrases
the tests match on (`not initialized`, `already running`). -/
def startApp (s : AppState) : Except String AppState :=
  if s.initialized = false then
    Except.error "This Application was not initialized"
  else if s.running = true then
    Except.error "This Application is already running"
  else
    Except.ok { s with running := true }

/-- Modelled from the spec: `stop()` fails if not running, else stops. -/
def stopApp (s : AppState) : Except String AppState :=
  if s.running = false then
    Except.error "This Application is not running"
  else
    Except.ok { s with running := false }

/-- Modelled from the spec: `shutdown()` fails while running
(`test_shutdown_while_running` matches `still running`), tears the
application down otherwise; a second `shutdown()` without an intervening
`initialize()` fails loudly. -/
def shutdownApp (s : AppState) : Except String AppState :=
  if s.running = true then
    Except.error "This Application is still running"
  else if s.initialized = false then
    Except.error "This Application is not initialized"
  else
    Except.ok { s with initialized := false }

/-! ## Supervised background tasks and `stop()` — modelled from the spec -/

/-- Modelled from the spec (sections 4.1 and 5): the bookkeeping of a run —
whether the application is running, the ids of the supervised background
tasks spawned during the run (via non-blocking handlers or `create_task`),
the ids of those that have completed, whether `stop()` has been requested
and whether the call to `stop()` has returned. -/
structure RunState where
  running : Bool
  spawned : List Nat
  finished : List Nat
  stopRequested : Bool
  stopDone : Bool
deriving DecidableEq, Repr

/-- The state at `start()`: running, no tasks, no stop in sight. -/
def runInit : RunState :=
  { running := true, spawned := [], finished := [],
    stopRequested := false, stopDone := false }

/-- The events of a run that matter to `stop()`. -/
inductive RunAction where
  | spawn (id : Nat)
  | finish (id : Nat)
  | requestStop
  | completeStop
deriving DecidableEq, Repr

/-- Does `s` consider every spawned task finished? -/
def RunState.allDone (s : RunState) : Bool :=
  decide (∀ id ∈ s.spawned, id ∈ s.finished)

/-- Modelled from the spec (sections 4.1 and 5): one scheduling step.  A
task can be spawned while the run is live; a spawned, unfinished task can
finish; `stop()` can be requested while running; and the call to `stop()`
completes only when it has been requested and every supervised task has
finished — it awaits them, it does not cancel them. -/
def runStep (s : RunState) (a : RunAction) : RunState :=
  match a with
  | RunAction.spawn id =>
      if s.running = true ∧ s.stopDone = false then
        { s with spawned := s.spawned ++ [id] }
      else s
  | RunAction.finish id =>
      if id ∈ s.spawned ∧ id ∉ s.finished then
        { s with finished := s.finished ++ [id] }
      else s
  | RunAction.requestStop =>
      if s.running = true then { s with stopRequested := true } else s
  | RunAction.completeStop =>
      if s.stopRequested = true ∧ s.allDone = true then
        { s with stopDone := true, running := false }
      else s

/-- Run a sequence of scheduling events from a state. -/
def runTrace (s : RunState) (acts : List RunAction) : RunState :=
  acts.foldl runStep s

/-! ## Concrete fixtures used by witnesses -/

/-- A handler whose check returns an empty dict (a match) and whose callback
returns normally. -/
def hMatchEmptyDict : Handler Nat :=
  ⟨1, fun _ => CheckResult.pyDict [], fun _ _ => HandlerOutcome.ok⟩

/-- A handler whose check returns `None` (never a match). -/
def hNoMatch : Handler Nat :=
  ⟨2, fun _ => CheckResult.pyNone, fun _ _ => HandlerOutcome.ok⟩

/-- A handler that matches and raises the stop-propagation exception. -/
def hMatchStop : Handler Nat :=
  ⟨3, fun _ => CheckResult.pyBool true, fun _ _ => HandlerOutcome.raiseStop⟩

/-- A handler that matches and raises an ordinary exception. -/
def hMatchErr : Handler Nat :=
  ⟨4, fun _ => CheckResult.pyStr "check", fun _ _ => HandlerOutcome.raiseError "boom"⟩

/-- A handler that matches (check returns `True`) and returns normally. -/
def hMatchAll : Handler Nat :=
  ⟨5, fun _ => CheckResult.pyBool true, fun _ _ => HandlerOutcome.ok⟩

/-! ## Helper lemmas -/

lemma reSubEscape_eq_flatMap (chars : List Char) (text : List Char) :
    reSubEscape chars text =
      text.flatMap fun c => if c ∈ chars then ['\\', c] else [c] := by
  induction text with
  | nil => rfl
  | cons c rest ih => simp [reSubEscape, ih]

/-! ## Claim theorems -/

/-- Claim C10: `escape_markdown` raises `ValueError` if and only if the
integer value of its version argument is neither 1 nor 2; for version 1 and
every input text, the result equals the input with a single backslash
inserted immediately before every occurrence of the characters underscore,
asterisk, backtick and opening bracket, with every other character
unchanged. -/
theorem escape_markdown_correct :
    (∀ (text : List Char) (v : Int) (et : Option String),
        escape_markdown text v et =
            Except.error "Markdown version must be either 1 or 2!" ↔
          (v ≠ 1 ∧ v ≠ 2))
    ∧ (∀ (text : List Char) (et : Option String),
        escape_markdown text 1 et = Except.ok (escapeMarkdownV1Spec text)) := by
  constructor
  · intro text v et
    unfold escape_markdown
    split_ifs with h1 h2 <;> simp_all
  · intro text et
    unfold escape_markdown
    rw [if_pos rfl]
    rw [reSubEscape_eq_flatMap]
    unfold escapeMarkdownV1Spec
    have hfun : (fun c => if c ∈ escapeCharsV1 then (['\\', c] : List Char) else [c]) =
        fun c =>
          if c = '_' ∨ c = '*' ∨ c = backtickChar ∨ c = '[' then ['\\', c] else [c] := by
      funext c
      simp [escapeCharsV1]
    rw [hfun]

/-- Claim C9: equality and hashing of `TelegramObject` are consistent — for
two objects of the same class with non-empty `_id_attrs`, they compare equal
exactly when their `_id_attrs` tuples are equal, and equal objects have
equal hashes. -/
theorem telegram_object_eq_hash (a b : TelegramObject)
    (hcls : a.cls = b.cls) (ha : a.idAttrs ≠ []) (hb : b.idAttrs ≠ []) :
    (TelegramObject.eq a b = true ↔ a.idAttrs = b.idAttrs)
    ∧ (TelegramObject.eq a b = true →
        TelegramObject.hashVal a = TelegramObject.hashVal b) := by
  constructor
  · simp [TelegramObject.eq, hcls]
  · intro h
    have heq : a.idAttrs = b.idAttrs := by
      simpa [TelegramObject.eq, hcls] using h
    unfold TelegramObject.hashVal
    rw [hcls, heq]

/-- Witness for C9 at two concrete objects of class `Chat` sharing the
`_id_attrs` tuple `(1,)`. -/
theorem telegram_object_eq_hash_witness :
    (TelegramObject.eq ⟨"Chat", [IdVal.int 1]⟩ ⟨"Chat", [IdVal.int 1]⟩ = true ↔
        ([IdVal.int 1] : List IdVal) = [IdVal.int 1])
    ∧ (TelegramObject.eq ⟨"Chat", [IdVal.int 1]⟩ ⟨"Chat", [IdVal.int 1]⟩ = true →
        TelegramObject.hashVal ⟨"Chat", [IdVal.int 1]⟩ =
          TelegramObject.hashVal ⟨"Chat", [IdVal.int 1]⟩) :=
  telegram_object_eq_hash ⟨"Chat", [IdVal.int 1]⟩ ⟨"Chat", [IdVal.int 1]⟩
    rfl (by decide) (by decide)

/-- Claim C6: for every token for which `getMe` raises a `TelegramError`,
`Bot.__init__` raises a new `TelegramError` carrying the message
`Bad token` instead of propagating the original error. -/
theorem bot_new_bad_token (token : String) (base_url : Option String)
    (getMe : String → Except TelegramError BotUser) (e : TelegramError)
    (h : getMe token = Except.error e) :
    botNew token base_url getMe = Except.error ⟨"Bad token"⟩
    ∧ (e.message ≠ "Bad token" → botNew token base_url getMe ≠ Except.error e) := by
  constructor
  · simp [botNew, h]
  · intro hmsg hcon
    rw [botNew, h] at hcon
    have : e = ⟨"Bad token"⟩ := by
      cases hcon
      rfl
    exact hmsg (by rw [this])

/-- Witness for C6: a `getMe` that always fails with `Unauthorized` makes the
bot constructor fail with `Bad token`. -/
theorem bot_new_bad_token_witness :
    botNew "123:abc" none (fun _ => Except.error ⟨"Unauthorized"⟩) =
        Except.error ⟨"Bad token"⟩
    ∧ ((⟨"Unauthorized"⟩ : TelegramError).message ≠ "Bad token" →
        botNew "123:abc" none (fun _ => Except.error ⟨"Unauthorized"⟩) ≠
          Except.error ⟨"Unauthorized"⟩) :=
  bot_new_bad_token "123:abc" none (fun _ => Except.error ⟨"Unauthorized"⟩)
    ⟨"Unauthorized"⟩ rfl

/-- Claim C3: the Application run-state machine rejects out-of-order
lifecycle calls — `start()` fails unless initialized and not running,
`stop()` fails unless running, `shutdown()` fails while running, and a
second `start()`, `stop()` or `shutdown()` without the intervening
transition fails rather than silently succeeding. -/
theorem app_lifecycle_guards :
    (∀ s : AppState, (startApp s).isOk = true ↔
        (s.initialized = true ∧ s.running = false))
    ∧ (∀ s : AppState, (stopApp s).isOk = true ↔ s.running = true)
    ∧ (∀ s : AppState, (shutdownApp s).isOk = true ↔
        (s.running = false ∧ s.initialized = true))
    ∧ (∀ s : AppState, ((startApp s).bind startApp).isOk = false)
    ∧ (∀ s : AppState, ((stopApp s).bind stopApp).isOk = false)
    ∧ (∀ s : AppState, ((shutdownApp s).bind shutdownApp).isOk = false) := by
  refine ⟨?_, ?_, ?_, ?_, ?_, ?_⟩ <;>
    (intro s; obtain ⟨i, r⟩ := s; cases i <;> cases r <;> decide)

/-- Claim C5 counterexample: a status-500 response whose body is not valid
JSON makes the request layer raise the base `TelegramError` from `_parse`,
not a `NetworkError`, so the claimed mapping (`NetworkError` for every
non-2xx status other than 400, 401, 403) does not hold as stated. -/
theorem request_wrapper_invalid_json_counterexample :
    requestWrapper (RequestOutcome.response 500 ParsedBody.invalidJson) =
        Except.error (TgError.telegramError "Invalid server response")
    ∧ isNetworkError
        (requestWrapper (RequestOutcome.response 500 ParsedBody.invalidJson)) =
        false := by
  constructor <;> rfl

/-- Claim C5 (amended): `TimedOut` on a timeout; every 2xx response returns
the body unraised; for a non-2xx response whose body parses to an error
description the raised error follows the claimed status mapping
(`Unauthorized` for 401/403, `BadRequest` for 400, `NetworkError` for 502
and for every other non-2xx status); and `Conflict` is never raised by the
request layer. -/
theorem request_error_mapping :
    (requestWrapper RequestOutcome.timeout = Except.error TgError.timedOut)
    ∧ (∀ (status : Nat) (body : ParsedBody), 200 ≤ status → status ≤ 299 →
        requestWrapper (RequestOutcome.response status body) = Except.ok body)
    ∧ (∀ (status : Nat) (s : String), status < 200 ∨ 299 < status →
        requestWrapper (RequestOutcome.response status (ParsedBody.errorDesc s)) =
          Except.error (specHttpError status s))
    ∧ (∀ r : RequestOutcome, isConflict (requestWrapper r) = false) := by
  refine ⟨rfl, ?_, ?_, ?_⟩
  · intro status body h1 h2
    simp [requestWrapper, h1, h2]
  · intro status s h
    have hn : ¬(200 ≤ status ∧ status ≤ 299) := by omega
    simp only [requestWrapper, if_neg hn, parseBody]
    unfold specHttpError
    split_ifs <;> rfl
  · intro r
    cases r with
    | timeout => rfl
    | httpError e => rfl
    | response status body =>
        cases body <;> (simp only [requestWrapper, parseBody]; split_ifs <;> rfl)

/-- Witness for the amended C5 at two concrete responses: a 250 success
passes the body through, a 404 with a parsed error description maps to the
generic `NetworkError`. -/
theorem request_error_mapping_witness :
    requestWrapper (RequestOutcome.response 250 (ParsedBody.result "x")) =
        Except.ok (ParsedBody.result "x")
    ∧ requestWrapper (RequestOutcome.response 404 (ParsedBody.errorDesc "Not Found")) =
        Except.error (specHttpError 404 "Not Found") :=
  ⟨request_error_mapping.2.1 250 (ParsedBody.result "x") (by decide) (by decide),
   request_error_mapping.2.2.1 404 "Not Found" (Or.inr (by decide))⟩

/-- Claim C8 counterexample: `Update.newFromJsonDict` applied to a
dictionary that has an `update_id` but no `message` key yields an update
with zero non-`None` payload fields, refuting that every constructed update
has exactly one. -/
theorem update_no_payload_counterexample :
    payloadCount (newFromJsonDict { update_id := some 1, message := none }) = 0 :=
  rfl

/-- Claim C8 (amended): every `Update` carries `update_id` and at most one
payload field — the single payload field of `update.py` is `message`, which
`newFromJsonDict` passes through unchanged and which is non-`None` exactly
when the source dictionary carried a `message` key. -/
theorem update_payload_at_most_one :
    (∀ u : TgUpdate, payloadCount u ≤ 1)
    ∧ (∀ data : UpdateJson,
        (newFromJsonDict data).update_id = data.update_id
        ∧ (newFromJsonDict data).message = data.message
        ∧ (payloadCount (newFromJsonDict data) = 1 ↔ data.message ≠ none)) := by
  constructor
  · intro u
    cases h : u.message <;> simp [payloadCount, h]
  · intro data
    refine ⟨rfl, rfl, ?_⟩
    cases h : data.message <;> simp [newFromJsonDict, payloadCount, h]

lemma firstMatch_none_iff {Upd : Type} (u : Upd) (hs : List (Handler Upd)) :
    firstMatch u hs = none ↔ ∀ h ∈ hs, (h.check u).isMatch = false := by
  induction hs with
  | nil => simp [firstMatch]
  | cons h rest ih =>
      by_cases hm : (h.check u).isMatch = true
      · simp [firstMatch, hm]
      · rw [Bool.not_eq_true] at hm
        simp [firstMatch, hm, ih]

lemma firstMatch_some_check {Upd : Type} {u : Upd} {hs : List (Handler Upd)}
    {h : Handler Upd} {r : CheckResult}
    (hfm : firstMatch u hs = some (h, r)) :
    r = h.check u ∧ (h.check u).isMatch = true := by
  induction hs with
  | nil => simp [firstMatch] at hfm
  | cons h0 rest ih =>
      by_cases hm : (h0.check u).isMatch = true
      · rw [firstMatch] at hfm
        simp only [hm, if_true] at hfm
        obtain ⟨hh, hr⟩ := Prod.mk.injEq _ _ _ _ ▸ Option.some.inj hfm
        subst hh
        exact ⟨hr.symm, hm⟩
      · rw [firstMatch] at hfm
        simp only [hm, if_false] at hfm
        exact ih hfm

/-- Claim C1: a handler in a group is selected exactly when its check result
is neither `None` nor `False` (empty containers and the empty string count
as a match), no earlier handler of the group having matched, and the
selected handler receives exactly the value its check returned. -/
theorem check_result_selection :
    (∀ r : CheckResult, r.isMatch = true ↔
        (r ≠ CheckResult.pyNone ∧ r ≠ CheckResult.pyBool false))
    ∧ (∀ (Upd : Type) (u : Upd) (hs : List (Handler Upd)),
        firstMatch u hs = none ↔ ∀ h ∈ hs, (h.check u).isMatch = false)
    ∧ (∀ (Upd : Type) (u : Upd) (hs : List (Handler Upd)) (h : Handler Upd)
        (r : CheckResult), firstMatch u hs = some (h, r) →
          r = h.check u ∧ (h.check u).isMatch = true)
    ∧ (∀ (Upd : Type) (u : Upd) (g : Int) (hs : List (Handler Upd))
        (h : Handler Upd) (r : CheckResult), firstMatch u hs = some (h, r) →
          process_update [(g, hs)] u = [⟨g, h.hid, r⟩])
    ∧ (∀ (Upd : Type) (u : Upd) (g : Int) (hs : List (Handler Upd)),
        firstMatch u hs = none → process_update [(g, hs)] u = []) := by
  refine ⟨?_, ?_, ?_, ?_, ?_⟩
  · intro r
    cases r with
    | pyBool b => cases b <;> simp [CheckResult.isMatch]
    | pyNone => simp [CheckResult.isMatch]
    | pyDict entries => simp [CheckResult.isMatch]
    | pyStr s => simp [CheckResult.isMatch]
  · intro Upd u hs
    exact firstMatch_none_iff u hs
  · intro Upd u hs h r hfm
    exact firstMatch_some_check hfm
  · intro Upd u g hs h r hfm
    simp only [process_update, dispatchGroups, hfm]
    cases hrun : h.run u r <;> simp [dispatchGroups]
  · intro Upd u g hs hfm
    simp [process_update, dispatchGroups, hfm]

/-- Witness for C1: a handler whose check returns the empty dict is selected
on the concrete update `7` and its callback receives exactly that empty
dict; a handler whose check returns `None` is never selected. -/
theorem check_result_selection_witness :
    process_update [((0 : Int), [hMatchEmptyDict])] 7 =
        [⟨0, 1, CheckResult.pyDict []⟩]
    ∧ process_update [((0 : Int), [hNoMatch])] 7 = [] :=
  ⟨check_result_selection.2.2.2.1 Nat 7 0 [hMatchEmptyDict] hMatchEmptyDict
      (CheckResult.pyDict []) rfl,
   check_result_selection.2.2.2.2 Nat 7 0 [hNoMatch] rfl⟩

lemma groupHandlers_eq_nil {Upd : Type} (g : Int)
    (reg : List (Int × List (Handler Upd))) (h : g ∉ reg.map Prod.fst) :
    groupHandlers g reg = [] := by
  induction reg with
  | nil => rfl
  | cons gh rest ih =>
      obtain ⟨g0, hs0⟩ := gh
      simp only [List.map_cons, List.mem_cons] at h
      push_neg at h
      simp [groupHandlers, h.1, ih h.2]

lemma addHandler_keys_sub {Upd : Type} (h : Handler Upd) (group : Int)
    (reg : List (Int × List (Handler Upd))) :
    ∀ k ∈ (addHandler h group reg).map Prod.fst,
      k = group ∨ k ∈ reg.map Prod.fst := by
  induction reg with
  | nil => simp [addHandler]
  | cons gh rest ih =>
      obtain ⟨g0, hs0⟩ := gh
      by_cases h1 : group = g0
      · simp [addHandler, h1]
      · by_cases h2 : group < g0
        · simp only [addHandler, if_neg h1, if_pos h2]
          intro k hk
          simp only [List.map_cons, List.mem_cons] at hk ⊢
          tauto
        · simp only [addHandler, if_neg h1, if_neg h2]
          intro k hk
          simp only [List.map_cons, List.mem_cons] at hk ⊢
          rcases hk with rfl | hk
          · tauto
          · rcases ih k hk with rfl | hk2 <;> tauto

lemma addHandler_sorted {Upd : Type} (h : Handler Upd) (group : Int)
    (reg : List (Int × List (Handler Upd)))
    (hs : List.Sorted (· < ·) (reg.map Prod.fst)) :
    List.Sorted (· < ·) ((addHandler h group reg).map Prod.fst) := by
  induction reg with
  | nil => simp [addHandler]
  | cons gh rest ih =>
      obtain ⟨g0, hs0⟩ := gh
      simp only [List.map_cons, List.sorted_cons] at hs
      obtain ⟨hall, hrest⟩ := hs
      by_cases h1 : group = g0
      · simp only [addHandler, if_pos h1, List.map_cons, List.sorted_cons]
        exact ⟨hall, hrest⟩
      · by_cases h2 : group < g0
        · simp only [addHandler, if_neg h1, if_pos h2, List.map_cons,
            List.sorted_cons]
          refine ⟨?_, hall, hrest⟩
          intro b hb
          rcases List.mem_cons.mp hb with rfl | hb2
          · exact h2
          · exact lt_trans h2 (hall b hb2)
        · simp only [addHandler, if_neg h1, if_neg h2, List.map_cons,
            List.sorted_cons]
          refine ⟨?_, ih hrest⟩
          intro b hb
          rcases addHandler_keys_sub h group rest b hb with rfl | hb2
          · omega
          · exact hall b hb2

lemma groupHandlers_addHandler_same {Upd : Type} (h : Handler Upd)
    (group : Int) (reg : List (Int × List (Handler Upd)))
    (hsort : List.Sorted (· < ·) (reg.map Prod.fst)) :
    groupHandlers group (addHandler h group reg) =
      groupHandlers group reg ++ [h] := by
  induction reg with
  | nil => simp [addHandler, groupHandlers]
  | cons gh rest ih =>
      obtain ⟨g0, hs0⟩ := gh
      simp only [List.map_cons, List.sorted_cons] at hsort
      obtain ⟨hall, hrest⟩ := hsort
      by_cases h1 : group = g0
      · subst h1
        simp [addHandler, groupHandlers]
      · by_cases h2 : group < g0
        · have hnot : group ∉ rest.map Prod.fst := by
            intro hmem
            exact absurd (lt_trans h2 (hall group hmem)) (lt_irrefl group)
          simp [addHandler, groupHandlers, h1, h2,
            groupHandlers_eq_nil group rest hnot]
        · simp [addHandler, groupHandlers, h1, h2, ih hrest]

lemma groupHandlers_addHandler_other {Upd : Type} (h : Handler Upd)
    (group g : Int) (reg : List (Int × List (Handler Upd))) (hne : g ≠ group) :
    groupHandlers g (addHandler h group reg) = groupHandlers g reg := by
  induction reg with
  | nil => simp [addHandler, groupHandlers, hne]
  | cons gh rest ih =>
      obtain ⟨g0, hs0⟩ := gh
      by_cases h1 : group = g0
      · subst h1
        simp [addHandler, groupHandlers, hne]
      · by_cases h2 : group < g0
        · simp [addHandler, groupHandlers, h1, h2, hne]
        · by_cases h3 : g = g0
          · subst h3
            simp [addHandler, groupHandlers, h1, h2]
          · simp [addHandler, groupHandlers, h1, h2, h3, ih]

lemma dispatchGroups_filterMap {Upd : Type} (u : Upd)
    (reg : List (Int × List (Handler Upd)))
    (hns : ∀ g hs h r, (g, hs) ∈ reg → firstMatch u hs = some (h, r) →
        h.run u r ≠ HandlerOutcome.raiseStop) :
    dispatchGroups u reg =
      reg.filterMap fun gh =>
        (firstMatch u gh.2).map fun pr => (⟨gh.1, pr.1.hid, pr.2⟩ : Ran) := by
  induction reg with
  | nil => rfl
  | cons gh rest ih =>
      obtain ⟨g, hs⟩ := gh
      have hrest : ∀ g0 hs0 h0 r0, (g0, hs0) ∈ rest →
          firstMatch u hs0 = some (h0, r0) →
          h0.run u r0 ≠ HandlerOutcome.raiseStop := by
        intro g0 hs0 h0 r0 hmem
        exact hns g0 hs0 h0 r0 (List.mem_cons_of_mem _ hmem)
      cases hfm : firstMatch u hs with
      | none => simp [dispatchGroups, hfm, List.filterMap_cons, ih hrest]
      | some pr =>
          obtain ⟨h, r⟩ := pr
          have hnr := hns g hs h r (List.mem_cons_self _ _) hfm
          cases hrun : h.run u r with
          | raiseStop => exact absurd hrun hnr
          | ok =>
              simp [dispatchGroups, hfm, hrun, List.filterMap_cons, ih hrest]
          | raiseError m =>
              simp [dispatchGroups, hfm, hrun, List.filterMap_cons, ih hrest]

/-- Claim C2: dispatch visits the handler groups in ascending group-number
order — the registry that `addHandler` maintains is sorted by group key and
a new handler is appended at the end of its group — and within each group
only the first matching handler (in insertion order) is invoked, later
groups still running for the same update. -/
theorem group_order_first_match :
    (∀ (Upd : Type) (u : Upd) (reg : List (Int × List (Handler Upd))),
        (∀ g hs h r, (g, hs) ∈ reg → firstMatch u hs = some (h, r) →
            h.run u r ≠ HandlerOutcome.raiseStop) →
        process_update reg u =
          reg.filterMap fun gh =>
            (firstMatch u gh.2).map fun pr => (⟨gh.1, pr.1.hid, pr.2⟩ : Ran))
    ∧ (∀ (Upd : Type) (h : Handler Upd) (group : Int)
        (reg : List (Int × List (Handler Upd))),
        List.Sorted (· < ·) (reg.map Prod.fst) →
        groupHandlers group (addHandler h group reg) =
          groupHandlers group reg ++ [h])
    ∧ (∀ (Upd : Type) (h : Handler Upd) (group g : Int)
        (reg : List (Int × List (Handler Upd))), g ≠ group →
        groupHandlers g (addHandler h group reg) = groupHandlers g reg)
    ∧ (∀ (Upd : Type) (h : Handler Upd) (group : Int)
        (reg : List (Int × List (Handler Upd))),
        List.Sorted (· < ·) (reg.map Prod.fst) →
        List.Sorted (· < ·) ((addHandler h group reg).map Prod.fst)) := by
  refine ⟨?_, ?_, ?_, ?_⟩
  · intro Upd u reg hns
    exact dispatchGroups_filterMap u reg hns
  · intro Upd h group reg hsort
    exact groupHandlers_addHandler_same h group reg hsort
  · intro Upd h group g reg hne
    exact groupHandlers_addHandler_other h group g reg hne
  · intro Upd h group reg hsort
    exact addHandler_sorted h group reg hsort

/-- Witness for C2: on the concrete two-group registry, group 0 (where the
first handler does not match and the second does) and group 2 both fire,
and adding a handler to an empty sorted registry appends it to its group. -/
theorem group_order_first_match_witness :
    process_update [((0 : Int), [hNoMatch, hMatchAll]),
        ((2 : Int), [hMatchEmptyDict])] 7 =
      ([((0 : Int), [hNoMatch, hMatchAll]),
        ((2 : Int), [hMatchEmptyDict])].filterMap fun gh =>
          (firstMatch 7 gh.2).map fun pr => (⟨gh.1, pr.1.hid, pr.2⟩ : Ran))
    ∧ groupHandlers 0 (addHandler hMatchAll 0
          ([] : List (Int × List (Handler Nat)))) =
        groupHandlers 0 ([] : List (Int × List (Handler Nat))) ++ [hMatchAll] := by
  constructor
  · apply group_order_first_match.1 Nat 7
    intro g hs h r hmem hfm
    simp only [List.mem_cons, List.not_mem_nil, or_false] at hmem
    rcases hmem with heq | heq <;>
      (obtain ⟨hg, hhs⟩ := Prod.mk.injEq .. ▸ heq; subst hhs)
    · have he : firstMatch 7 [hNoMatch, hMatchAll] =
          some (hMatchAll, CheckResult.pyBool true) := rfl
      rw [he] at hfm
      obtain ⟨hh, hr⟩ := Prod.mk.injEq .. ▸ Option.some.inj hfm
      subst hh
      subst hr
      decide
    · have he : firstMatch 7 [hMatchEmptyDict] =
          some (hMatchEmptyDict, CheckResult.pyDict []) := rfl
      rw [he] at hfm
      obtain ⟨hh, hr⟩ := Prod.mk.injEq .. ▸ Option.some.inj hfm
      subst hh
      subst hr
      decide
  · exact group_order_first_match.2.1 Nat hMatchAll 0 [] (by simp)

lemma dispatchGroups_append_of_no_stop {Upd : Type} (u : Upd)
    (pre rest : List (Int × List (Handler Upd)))
    (hpre : ∀ g hs h r, (g, hs) ∈ pre → firstMatch u hs = some (h, r) →
        h.run u r ≠ HandlerOutcome.raiseStop) :
    dispatchGroups u (pre ++ rest) =
      dispatchGroups u pre ++ dispatchGroups u rest := by
  induction pre with
  | nil => simp [dispatchGroups]
  | cons gh pres ih =>
      obtain ⟨g, hs⟩ := gh
      have hpres : ∀ g0 hs0 h0 r0, (g0, hs0) ∈ pres →
          firstMatch u hs0 = some (h0, r0) →
          h0.run u r0 ≠ HandlerOutcome.raiseStop := by
        intro g0 hs0 h0 r0 hmem
        exact hpre g0 hs0 h0 r0 (List.mem_cons_of_mem _ hmem)
      cases hfm : firstMatch u hs with
      | none => simp [dispatchGroups, hfm, ih hpres]
      | some pr =>
          obtain ⟨h, r⟩ := pr
          have hnr := hpre g hs h r (List.mem_cons_self _ _) hfm
          cases hrun : h.run u r with
          | raiseStop => exact absurd hrun hnr
          | ok => simp [dispatchGroups, hfm, hrun, ih hpres]
          | raiseError m => simp [dispatchGroups, hfm, hrun, ih hpres]

/-- Claim C4: if the handler selected in some group raises the
stop-propagation exception, no handler of any later group runs for that
update, while the trace of the earlier groups is exactly what it would have
been — their handlers did run and are not undone. -/
theorem stop_propagation_aborts (Upd : Type) (u : Upd)
    (pre post : List (Int × List (Handler Upd))) (g : Int)
    (hs : List (Handler Upd)) (h : Handler Upd) (r : CheckResult)
    (hpre : ∀ g0 hs0 h0 r0, (g0, hs0) ∈ pre →
        firstMatch u hs0 = some (h0, r0) →
        h0.run u r0 ≠ HandlerOutcome.raiseStop)
    (hsel : firstMatch u hs = some (h, r))
    (hstop : h.run u r = HandlerOutcome.raiseStop) :
    process_update (pre ++ (g, hs) :: post) u =
      process_update pre u ++ [⟨g, h.hid, r⟩] := by
  unfold process_update
  rw [dispatchGroups_append_of_no_stop u pre _ hpre]
  congr 1
  simp [dispatchGroups, hsel, hstop]

/-- Witness for C4: with group 0 running normally, the stop-raising handler
in group 1 ends the trace — group 2 does not run, group 0 did. -/
theorem stop_propagation_aborts_witness :
    process_update [((0 : Int), [hMatchAll]), ((1 : Int), [hMatchStop]),
        ((2 : Int), [hMatchErr])] 7 =
      process_update [((0 : Int), [hMatchAll])] 7 ++
        [⟨1, 3, CheckResult.pyBool true⟩] := by
  apply stop_propagation_aborts Nat 7 [((0 : Int), [hMatchAll])]
      [((2 : Int), [hMatchErr])] 1 [hMatchStop] hMatchStop
      (CheckResult.pyBool true) ?_ rfl rfl
  intro g0 hs0 h0 r0 hmem hfm
  simp only [List.mem_cons, List.not_mem_nil, or_false] at hmem
  obtain ⟨hg, hhs⟩ := Prod.mk.injEq .. ▸ hmem
  subst hhs
  have he : firstMatch 7 [hMatchAll] =
      some (hMatchAll, CheckResult.pyBool true) := rfl
  rw [he] at hfm
  obtain ⟨hh, hr⟩ := Prod.mk.injEq .. ▸ Option.some.inj hfm
  subst hh
  subst hr
  decide

lemma runStep_preserves_allDone (s : RunState) (a : RunAction)
    (hI : s.stopDone = true → s.allDone = true) :
    (runStep s a).stopDone = true → (runStep s a).allDone = true := by
  cases a with
  | spawn id =>
      simp only [runStep]
      split_ifs with hc
      · intro hcon
        simp only at hcon
        exact absurd hcon (by simp [hc.2])
      · exact hI
  | finish id =>
      simp only [runStep]
      split_ifs with hc
      · intro hd
        simp only at hd
        have hAD := hI hd
        simp only [RunState.allDone, decide_eq_true_eq] at hAD ⊢
        intro x hx
        exact List.mem_append_left _ (hAD x hx)
      · exact hI
  | requestStop =>
      simp only [runStep]
      split_ifs with hc
      · intro hd
        simp only at hd
        have hAD := hI hd
        simpa [RunState.allDone] using hAD
      · exact hI
  | completeStop =>
      simp only [runStep]
      split_ifs with hc
      · intro _
        simpa [RunState.allDone] using hc.2
      · exact hI

lemma runTrace_stopDone_allDone (acts : List RunAction) (s : RunState)
    (hI : s.stopDone = true → s.allDone = true) :
    (runTrace s acts).stopDone = true → (runTrace s acts).allDone = true := by
  induction acts generalizing s with
  | nil => exact hI
  | cons a rest ih =>
      simp only [runTrace, List.foldl_cons]
      exact ih (runStep s a) (runStep_preserves_allDone s a hI)

/-- Claim C7: the call to `stop()` completes only after every supervised
background task spawned during the run has completed — from the start of a
run, any schedule in which `stop()` has returned has every spawned task
finished; `stop()` completes as soon as they all are, and cannot complete
while one is still pending. -/
theorem stop_awaits_tasks :
    (∀ acts : List RunAction, (runTrace runInit acts).stopDone = true →
        ∀ id ∈ (runTrace runInit acts).spawned,
          id ∈ (runTrace runInit acts).finished)
    ∧ (∀ s : RunState, s.stopRequested = true → s.allDone = true →
        (runStep s RunAction.completeStop).stopDone = true)
    ∧ (∀ s : RunState, s.stopDone = false → s.allDone = false →
        (runStep s RunAction.completeStop).stopDone = false) := by
  refine ⟨?_, ?_, ?_⟩
  · intro acts hdone id hid
    have hAD := runTrace_stopDone_allDone acts runInit
      (by intro hcon; simp [runInit] at hcon) hdone
    simp only [RunState.allDone, decide_eq_true_eq] at hAD
    exact hAD id hid
  · intro s h1 h2
    simp [runStep, h1, h2]
  · intro s h1 h2
    simp only [runStep]
    split_ifs with hc
    · exact absurd hc.2 (by simp [h2])
    · exact h1

/-- Witness for C7: in the schedule spawn-task-1, request stop, finish
task 1, complete stop, the completed stop implies task 1 finished; and from
a state with task 1 pending, the completion step cannot mark stop done. -/
theorem stop_awaits_tasks_witness :
    1 ∈ (runTrace runInit [RunAction.spawn 1, RunAction.requestStop,
        RunAction.finish 1, RunAction.completeStop]).finished
    ∧ (runStep ⟨true, [1], [], true, false⟩ RunAction.completeStop).stopDone =
        false :=
  ⟨stop_awaits_tasks.1 [RunAction.spawn 1, RunAction.requestStop,
      RunAction.finish 1, RunAction.completeStop] (by decide) 1 (by decide),
   stop_awaits_tasks.2.2 ⟨true, [1], [], true, false⟩ rfl (by decide)⟩
